import Mathlib

/-!
Verification of the power-loss recovery engine (`feature/powerloss.cpp`,
class `PrintJobRecovery`) and the DGUS panel protocol engine
(`lcd/extui/lib/anycubic_dgus/dgus_tft.cpp`, class `DgusTFT`) of the
AnyCubic Kobra printer firmware, shallowly embedded in Lean.

Machine integers are embedded as `Nat` with explicit `% 2 ^ w` where the
source relies on overflow (the `uint8_t` validity markers, the `uint32_t`
page index).  Floating-point machine coordinates are embedded as `ℚ`; the
resume/save logic only copies, compares and offsets them, so exact
rationals are a faithful model of the decisions taken.  Millisecond
timestamps are embedded as `Nat`, with Marlin's `ELAPSED(ms, t)` read as
`t ≤ ms`.
-/

/-! ## Recovery engine: snapshot record and save trigger (powerloss.cpp) -/

/-- Validity-marker increment performed by an accepted save.  The source
runs `if (!++info.valid_head) ++info.valid_head;` on a `uint8_t`
(powerloss.cpp line 201): the marker is incremented modulo 256 and a
result of zero is incremented once more, so zero is skipped. -/
def nextValidHead (h : Nat) : Nat :=
  if (h + 1) % 256 = 0 then 1 else (h + 1) % 256

/-- The fixed-size recovery snapshot `job_recovery_info_t` as used by
`powerloss.cpp` (single hotend, single fan, no multi-extruder, as on this
machine).  `valid_head`/`valid_foot` are the torn-write markers. -/
structure JobRecoveryInfo where
  valid_head : Nat
  valid_foot : Nat
  x : ℚ
  y : ℚ
  z : ℚ
  e : ℚ
  feedrate : Nat
  zraise : ℚ
  target_temperature : Nat
  target_temperature_bed : Nat
  fan_speed : Nat
  leveling : Bool
  fade : ℚ
  volumetric_enabled : Bool
  filament_size : ℚ
  retract : ℚ
  retract_hop : ℚ
  print_job_elapsed : Nat
  print_progress : Nat
  axis_relative : Nat
  dryrun : Bool
  allow_cold_extrusion : Bool
  sd_filename : String
  sdpos : Nat
deriving DecidableEq

/-- The zeroed record produced by `init()` / `purge()`
(`memset(&info, 0, sizeof(info))`, powerloss.cpp lines 102 and 152). -/
def zeroInfo : JobRecoveryInfo :=
  { valid_head := 0, valid_foot := 0, x := 0, y := 0, z := 0, e := 0
    feedrate := 0, zraise := 0, target_temperature := 0
    target_temperature_bed := 0, fan_speed := 0, leveling := false
    fade := 0, volumetric_enabled := false, filament_size := 0
    retract := 0, retract_hop := 0, print_job_elapsed := 0
    print_progress := 0, axis_relative := 0, dryrun := false
    allow_cold_extrusion := false, sd_filename := "", sdpos := 0 }

/-- The live machine state sampled by `PrintJobRecovery::save`
(powerloss.cpp lines 206-260): position, feedrate, temperatures, fans,
leveling, volumetrics, retract, job time and progress, misc flags. -/
structure Machine where
  x : ℚ
  y : ℚ
  z : ℚ
  e : ℚ
  feedrate : Nat
  target_temperature : Nat
  target_temperature_bed : Nat
  fan_speed : Nat
  leveling : Bool
  fade : ℚ
  volumetric_enabled : Bool
  filament_size : ℚ
  retract : ℚ
  retract_hop : ℚ
  print_job_elapsed : Nat
  print_progress : Nat
  axis_relative : Nat
  dryrun : Bool
  allow_cold_extrusion : Bool
deriving DecidableEq

/-- Body of an accepted `save`: first the head marker is incremented
(wrapping, skipping zero) and the foot set equal to it (powerloss.cpp
lines 200-203), then every machine-state field is copied into the record.
`sd_filename` and `sdpos` are not touched by `save` (they are set by
`prepare()` and the SD machinery). -/
def updatedInfo (m : Machine) (zraise : ℚ) (i : JobRecoveryInfo) : JobRecoveryInfo :=
  { valid_head := nextValidHead i.valid_head
    valid_foot := nextValidHead i.valid_head
    x := m.x, y := m.y, z := m.z, e := m.e
    feedrate := m.feedrate
    zraise := zraise
    target_temperature := m.target_temperature
    target_temperature_bed := m.target_temperature_bed
    fan_speed := m.fan_speed
    leveling := m.leveling
    fade := m.fade
    volumetric_enabled := m.volumetric_enabled
    filament_size := m.filament_size
    retract := m.retract
    retract_hop := m.retract_hop
    print_job_elapsed := m.print_job_elapsed
    print_progress := m.print_progress
    axis_relative := m.axis_relative
    dryrun := m.dryrun
    allow_cold_extrusion := m.allow_cold_extrusion
    sd_filename := i.sd_filename
    sdpos := i.sdpos }

/-- Persistent state threaded through `save` calls: the static
`next_save_ms` deadline, the in-RAM record `info`, and the flash copy
written by `write()`. -/
structure PlrState where
  next_save_ms : Nat
  info : JobRecoveryInfo
  flash : JobRecoveryInfo
deriving DecidableEq

/-- Minimum Z change that triggers a save, `POWER_LOSS_MIN_Z_CHANGE`
(powerloss.cpp line 182, default 0.05). -/
def minZChange : ℚ := 1 / 20

/-- One call to `PrintJobRecovery::save(force, zraise)` (powerloss.cpp
lines 174-264) with `SAVE_EACH_CMD_MODE` disabled and a positive
`SAVE_INFO_INTERVAL_MS` (`interval`).  The snapshot is written when
`force` is set, or the interval deadline has elapsed, or the current Z
exceeds the last-saved Z by more than `minZChange`; otherwise nothing at
all is modified.  Returns the new state and whether a write happened. -/
def saveStep (interval : Nat) (force : Bool) (zraise : ℚ) (m : Machine)
    (ms : Nat) (s : PlrState) : PlrState × Bool :=
  if force = true ∨ s.next_save_ms ≤ ms ∨ s.info.z + minZChange < m.z then
    let i := updatedInfo m zraise s.info
    ({ next_save_ms := ms + interval, info := i, flash := i }, true)
  else
    (s, false)

/-- Modelled from the spec: `PrintJobRecovery::valid()` lives in
`powerloss.h`, which is not part of the sources; per the spec the record
is valid only if `head == foot` and both are non-zero. -/
def validRecord (i : JobRecoveryInfo) : Bool :=
  decide (i.valid_head ≠ 0 ∧ i.valid_head = i.valid_foot)

/-- Modelled from the spec: `PrintJobRecovery::cancel()` lives in
`powerloss.h`, which is not part of the sources; per the spec an invalid
record makes `check()` clear the state (via `purge()`, powerloss.cpp
lines 141-154, which zeroes the record) and take no further action. -/
def cancelInfo : JobRecoveryInfo := zeroInfo

/-- Boot-time `PrintJobRecovery::check()` (powerloss.cpp lines 129-136):
when the card is mounted, `load()` copies the flash record into `info`;
if it is not valid the state is cleared and nothing is injected,
otherwise the single command `M1000S` is injected. -/
def check (mounted : Bool) (i0 flash : JobRecoveryInfo) :
    JobRecoveryInfo × List String :=
  if mounted = true then
    if validRecord flash = true then (flash, ["M1000S"]) else (cancelInfo, [])
  else
    (i0, [])

/-- The marker produced by an accepted save is never zero. -/
theorem nextValidHead_ne_zero (h : Nat) : nextValidHead h ≠ 0 := by
  unfold nextValidHead
  split
  · exact one_ne_zero
  · assumption

/-- C1: every accepted save first increments the head validity marker
(wrapping and skipping zero) and sets the foot equal to the head, and a
loaded snapshot whose head and foot differ (or whose head is zero) is
rejected by `check()` at boot: the record is discarded and no recovery
command is injected, regardless of the rest of the record. -/
theorem save_markers_and_torn_write_rejection :
    (∀ (interval : Nat) (force : Bool) (zraise : ℚ) (m : Machine)
        (ms : Nat) (s : PlrState),
      (saveStep interval force zraise m ms s).2 = true →
        ((saveStep interval force zraise m ms s).1.info.valid_head
            = nextValidHead s.info.valid_head ∧
          (saveStep interval force zraise m ms s).1.info.valid_foot
            = (saveStep interval force zraise m ms s).1.info.valid_head ∧
          (saveStep interval force zraise m ms s).1.info.valid_head ≠ 0)) ∧
    (∀ (i0 flash : JobRecoveryInfo),
      flash.valid_head ≠ flash.valid_foot ∨ flash.valid_head = 0 →
        check true i0 flash = (zeroInfo, [])) := by
  constructor
  · intro interval force zraise m ms s hw
    by_cases hc : force = true ∨ s.next_save_ms ≤ ms ∨ s.info.z + minZChange < m.z
    · simp only [saveStep, if_pos hc]
      exact ⟨rfl, rfl, nextValidHead_ne_zero _⟩
    · simp only [saveStep, if_neg hc] at hw
      exact absurd hw (by simp)
  · intro i0 flash hbad
    have hval : validRecord flash = false := by
      unfold validRecord
      simp only [decide_eq_false_iff_not]
      intro hh
      rcases hbad with hne | hz
      · exact hne hh.2
      · exact hh.1 hz
    unfold check
    simp [hval, cancelInfo]

/-- Sample machine state used to instantiate the recovery theorems. -/
def sampleMachine : Machine :=
  { x := 10, y := 20, z := 3, e := 5, feedrate := 1800
    target_temperature := 200, target_temperature_bed := 60
    fan_speed := 255, leveling := true, fade := 10
    volumetric_enabled := false, filament_size := 0
    retract := 0, retract_hop := 0, print_job_elapsed := 100
    print_progress := 7, axis_relative := 0, dryrun := false
    allow_cold_extrusion := false }

/-- Sample recovery-engine state used to instantiate the theorems. -/
def samplePlr : PlrState :=
  { next_save_ms := 0, info := zeroInfo, flash := zeroInfo }

/-- A torn record with mismatched markers. -/
def tornFlash : JobRecoveryInfo :=
  { zeroInfo with valid_head := 5, valid_foot := 4, sd_filename := "/A.GCO" }

/-- Witness for C1 at concrete inputs. -/
theorem save_markers_and_torn_write_rejection_witness :
    ((saveStep 1000 true 0 sampleMachine 0 samplePlr).1.info.valid_head
        = nextValidHead samplePlr.info.valid_head ∧
      (saveStep 1000 true 0 sampleMachine 0 samplePlr).1.info.valid_foot
        = (saveStep 1000 true 0 sampleMachine 0 samplePlr).1.info.valid_head ∧
      (saveStep 1000 true 0 sampleMachine 0 samplePlr).1.info.valid_head ≠ 0) ∧
    check true zeroInfo tornFlash = (zeroInfo, []) :=
  ⟨save_markers_and_torn_write_rejection.1 1000 true 0 sampleMachine 0 samplePlr
      (by decide),
    save_markers_and_torn_write_rejection.2 zeroInfo tornFlash
      (Or.inl (by decide))⟩

/-- C6: if a `save(force := false)` is accepted, a second
`save(force := false)` issued before the new interval deadline and with
the current Z not exceeding the just-saved Z by more than `minZChange`
performs no write and leaves the whole recovery state — including the
persisted snapshot and its validity markers — unchanged. -/
theorem save_trigger_idempotent (interval : Nat) (zr1 zr2 : ℚ)
    (m1 m2 : Machine) (ms1 ms2 : Nat) (s0 : PlrState)
    (_hacc : (saveStep interval false zr1 m1 ms1 s0).2 = true)
    (htime : ms2 < (saveStep interval false zr1 m1 ms1 s0).1.next_save_ms)
    (hz : m2.z ≤ (saveStep interval false zr1 m1 ms1 s0).1.info.z + minZChange) :
    saveStep interval false zr2 m2 ms2 (saveStep interval false zr1 m1 ms1 s0).1
      = ((saveStep interval false zr1 m1 ms1 s0).1, false) := by
  set s1 := (saveStep interval false zr1 m1 ms1 s0).1 with hs1
  have hc : ¬ (false = true ∨ s1.next_save_ms ≤ ms2
      ∨ s1.info.z + minZChange < m2.z) := by
    push_neg
    exact ⟨by simp, htime, hz⟩
  simp only [saveStep, if_neg hc]

/-- Witness for C6 at concrete inputs: the first non-forced save is
accepted because the deadline 0 has elapsed; the immediate second call at
1 ms with unchanged Z writes nothing. -/
theorem save_trigger_idempotent_witness :
    saveStep 1000 false 0 sampleMachine 1
        (saveStep 1000 false 0 sampleMachine 0 samplePlr).1
      = ((saveStep 1000 false 0 sampleMachine 0 samplePlr).1, false) :=
  save_trigger_idempotent 1000 0 0 sampleMachine sampleMachine 0 1 samplePlr
    (by norm_num [saveStep, samplePlr, sampleMachine, zeroInfo, minZChange])
    (by norm_num [saveStep, samplePlr, sampleMachine, zeroInfo, minZChange])
    (by norm_num [saveStep, samplePlr, sampleMachine, zeroInfo, minZChange,
      updatedInfo])

/-! ## Panel protocol engine: state model (dgus_tft.cpp) -/

/-- The printer states `printer_state_t` of the panel engine. -/
inductive PrinterState where
  | idle
  | printing
  | pausing
  | paused
  | stopping
  | stopping_from_media_remove
  | probing
  | resuming_from_power_outage
deriving DecidableEq

/-- The pause sub-states `paused_state_t`. -/
inductive PauseState where
  | idle
  | filament_lack
  | heater_timed_out
  | purging_filament
deriving DecidableEq

/-- The per-heater states `heater_state_t`. -/
inductive HeaterState where
  | off
  | temp_set
  | temp_reached
deriving DecidableEq

/-- Observable side effects the panel engine issues towards its
collaborators: injected G-code, page changes (`ChangePageOfTFT`
transmits, `FakeChangePageOfTFT` only updates the bookkeeping), text
pushes to a panel address, tunes, and the filament-runout latch. -/
inductive PanelEffect where
  | inject (cmd : String)
  | changePage (page : Nat)
  | fakeChangePage (page : Nat)
  | sendTxt (addr : Nat) (txt : String)
  | playTune
  | setFilamentRunout (b : Bool)
deriving DecidableEq

/-- Page ids used below, from the `#define PAGE_...` table of
dgus_tft.cpp lines 3555-3638 (with `PAGE_OFFSET` 0). -/
def PAGE_MAIN : Nat := 1

/-- Page id of `PAGE_STATUS1` (resume shown). -/
def PAGE_STATUS1 : Nat := 3

/-- Page id of `PAGE_STATUS2` (pause shown). -/
def PAGE_STATUS2 : Nat := 4

/-- Page id of `PAGE_PreLEVEL`. -/
def PAGE_PreLEVEL : Nat := 16

/-- Page id of `PAGE_LEVELING`. -/
def PAGE_LEVELING : Nat := 34

/-- Page id of `PAGE_OUTAGE_RECOVERY`. -/
def PAGE_OUTAGE_RECOVERY : Nat := 171

/-- Page id of `PAGE_ENG_OUTAGE_RECOVERY`. -/
def PAGE_ENG_OUTAGE_RECOVERY : Nat := 173

/-- Page id of `PAGE_CHS_PROBE_PREHEATING`. -/
def PAGE_CHS_PROBE_PREHEATING : Nat := 176

/-- Page id of `PAGE_ENG_PROBE_PREHEATING`. -/
def PAGE_ENG_PROBE_PREHEATING : Nat := 175

/-- Page id of `PAGE_CHS_HOMING`. -/
def PAGE_CHS_HOMING : Nat := 177

/-- Page id of `PAGE_ENG_HOMING`. -/
def PAGE_ENG_HOMING : Nat := 189

/-- Page id of `PAGE_CHS_PROBE_PRECHECK`. -/
def PAGE_CHS_PROBE_PRECHECK : Nat := 201

/-- Page id of `PAGE_CHS_PROBE_PRECHECK_FAILED`. -/
def PAGE_CHS_PROBE_PRECHECK_FAILED : Nat := 203

/-- Page id of `PAGE_CHS_ABNORMAL_BED_HEATER`. -/
def PAGE_CHS_ABNORMAL_BED_HEATER : Nat := 178

/-- Page id of `PAGE_CHS_ABNORMAL_BED_NTC`. -/
def PAGE_CHS_ABNORMAL_BED_NTC : Nat := 179

/-- Page id of `PAGE_CHS_ABNORMAL_HOTEND_HEATER`. -/
def PAGE_CHS_ABNORMAL_HOTEND_HEATER : Nat := 180

/-- Page id of `PAGE_CHS_ABNORMAL_HOTEND_NTC`. -/
def PAGE_CHS_ABNORMAL_HOTEND_NTC : Nat := 181

/-- Page id of `PAGE_CHS_ABNORMAL_X_ENDSTOP`. -/
def PAGE_CHS_ABNORMAL_X_ENDSTOP : Nat := 182

/-- Page id of `PAGE_CHS_ABNORMAL_Y_ENDSTOP`. -/
def PAGE_CHS_ABNORMAL_Y_ENDSTOP : Nat := 183

/-- Page id of `PAGE_CHS_ABNORMAL_Z_ENDSTOP`. -/
def PAGE_CHS_ABNORMAL_Z_ENDSTOP : Nat := 184

/-- Page id of `PAGE_CHS_ABNORMAL_LEVELING_SENSOR`. -/
def PAGE_CHS_ABNORMAL_LEVELING_SENSOR : Nat := 187

/-- Panel text address `TXT_OUTAGE_RECOVERY_FILE` (0x2180). -/
def TXT_OUTAGE_RECOVERY_FILE : Nat := 0x2180

/-- Panel text address `TXT_OUTAGE_RECOVERY_PROGRESS` (0x2210). -/
def TXT_OUTAGE_RECOVERY_PROGRESS : Nat := 0x2210

/-! ## Language-aware page resolution (`ChangePageOfTFT`), claim C4 -/

/-- The two panel languages `ExtUI::CHS` / `ExtUI::ENG`. -/
inductive LcdLanguage where
  | CHS
  | ENG
deriving DecidableEq

/-- Resolution of a logical page id to the id transmitted to the panel,
`DgusTFT::ChangePageOfTFT` lines 840-855 (identical in
`FakeChangePageOfTFT` lines 896-910).  `data_temp` is a `uint32_t`, so
the generic `+120` arm is taken modulo `2 ^ 32`. -/
def resolvePage (lang : LcdLanguage) (page : Nat) : Nat :=
  match lang with
  | .CHS => page
  | .ENG =>
    if page = PAGE_OUTAGE_RECOVERY then PAGE_ENG_OUTAGE_RECOVERY
    else if page = PAGE_CHS_PROBE_PREHEATING then PAGE_ENG_PROBE_PREHEATING
    else if PAGE_CHS_HOMING ≤ page ∧ page ≤ PAGE_ENG_HOMING then
      (page + 12) % 2 ^ 32
    else if PAGE_CHS_PROBE_PRECHECK ≤ page
        ∧ page ≤ PAGE_CHS_PROBE_PRECHECK_FAILED then
      (page + 3) % 2 ^ 32
    else (page + 120) % 2 ^ 32

/-- The fixed 10-byte page-change frame transmitted by
`ChangePageOfTFT` (dgus_tft.cpp lines 857-873): sync pair, length 7,
opcode 0x82, address 0x0084, constant 0x5A01, then the resolved page id
big-endian (low 16 bits of `data_temp`). -/
def changePageFrame (lang : LcdLanguage) (page : Nat) : List Nat :=
  let d := resolvePage lang page
  [0x5A, 0xA5, 0x07, 0x82, 0x00, 0x84, 0x5A, 0x01, d / 256 % 256, d % 256]

/-- C4: English page resolution follows the documented exception table —
171 maps to 173, 176 maps to 175, the whole band 177..189 maps by +12,
the whole band 201..203 maps by +3, and every other page maps by +120
(as a `uint32_t`) — while under the Chinese language the page id is
transmitted unchanged. -/
theorem resolvePage_exception_table (p : Nat) (hp : p < 2 ^ 32) :
    resolvePage .ENG PAGE_OUTAGE_RECOVERY = PAGE_ENG_OUTAGE_RECOVERY ∧
    resolvePage .ENG PAGE_CHS_PROBE_PREHEATING = PAGE_ENG_PROBE_PREHEATING ∧
    (PAGE_CHS_HOMING ≤ p → p ≤ PAGE_ENG_HOMING →
      resolvePage .ENG p = p + 12) ∧
    (PAGE_CHS_PROBE_PRECHECK ≤ p → p ≤ PAGE_CHS_PROBE_PRECHECK_FAILED →
      resolvePage .ENG p = p + 3) ∧
    (p ≠ PAGE_OUTAGE_RECOVERY → p ≠ PAGE_CHS_PROBE_PREHEATING →
      ¬ (PAGE_CHS_HOMING ≤ p ∧ p ≤ PAGE_ENG_HOMING) →
      ¬ (PAGE_CHS_PROBE_PRECHECK ≤ p ∧ p ≤ PAGE_CHS_PROBE_PRECHECK_FAILED) →
      resolvePage .ENG p = (p + 120) % 2 ^ 32) ∧
    resolvePage .CHS p = p ∧
    changePageFrame .CHS p
      = [0x5A, 0xA5, 0x07, 0x82, 0x00, 0x84, 0x5A, 0x01, p / 256 % 256,
          p % 256] := by
  unfold resolvePage changePageFrame resolvePage
  unfold PAGE_OUTAGE_RECOVERY PAGE_ENG_OUTAGE_RECOVERY
    PAGE_CHS_PROBE_PREHEATING PAGE_ENG_PROBE_PREHEATING PAGE_CHS_HOMING
    PAGE_ENG_HOMING PAGE_CHS_PROBE_PRECHECK PAGE_CHS_PROBE_PRECHECK_FAILED
  refine ⟨by norm_num, by norm_num, ?_, ?_, ?_, rfl, rfl⟩
  · intro h1 h2
    have hne1 : p ≠ 171 := by omega
    have hne2 : p ≠ 176 := by omega
    rw [if_neg hne1, if_neg hne2, if_pos ⟨h1, h2⟩]
    exact Nat.mod_eq_of_lt (by omega)
  · intro h1 h2
    have hne1 : p ≠ 171 := by omega
    have hne2 : p ≠ 176 := by omega
    have hne3 : ¬ (177 ≤ p ∧ p ≤ 189) := by omega
    rw [if_neg hne1, if_neg hne2, if_neg hne3, if_pos ⟨h1, h2⟩]
    exact Nat.mod_eq_of_lt (by omega)
  · intro h1 h2 h3 h4
    rw [if_neg h1, if_neg h2, if_neg h3, if_neg h4]

/-- Witness for C4 at concrete pages: a homing-band page, a
precheck-band page and a generic page. -/
theorem resolvePage_exception_table_witness :
    (PAGE_CHS_HOMING ≤ 180 → 180 ≤ PAGE_ENG_HOMING →
      resolvePage .ENG 180 = 180 + 12) ∧
    (PAGE_CHS_PROBE_PRECHECK ≤ 202 → 202 ≤ PAGE_CHS_PROBE_PRECHECK_FAILED →
      resolvePage .ENG 202 = 202 + 3) ∧
    (34 ≠ PAGE_OUTAGE_RECOVERY → 34 ≠ PAGE_CHS_PROBE_PREHEATING →
      ¬ (PAGE_CHS_HOMING ≤ 34 ∧ 34 ≤ PAGE_ENG_HOMING) →
      ¬ (PAGE_CHS_PROBE_PRECHECK ≤ 34
          ∧ 34 ≤ PAGE_CHS_PROBE_PRECHECK_FAILED) →
      resolvePage .ENG 34 = (34 + 120) % 2 ^ 32) :=
  ⟨((resolvePage_exception_table 180 (by norm_num)).2).2.1,
    (((resolvePage_exception_table 202 (by norm_num)).2).2.2).1,
    ((((resolvePage_exception_table 34 (by norm_num)).2).2.2).2).1⟩

/-! ## C string primitives used by the panel engine -/

/-- Embedding of C `strncmp(s, lit, strlen(lit)) == 0`: does `s` start
with `pre`?  Defined over the character lists so that it evaluates by
kernel reduction (the panel strings are ASCII, where C byte positions
and Lean character positions coincide). -/
def cStartsWith (s pre : String) : Bool :=
  pre.data.isPrefixOf s.data

/-- Embedding of C `strcmp(s + n, t) == 0`: is the suffix of `s` after
dropping `n` leading characters equal to `t`? -/
def cDropEq (s : String) (n : Nat) (t : String) : Bool :=
  s.data.drop n = t.data

/-- Two candidate prefixes of the same string are comparable; if neither
is a prefix of the other then a string cannot start with both. -/
theorem cStartsWith_exclusive (s p q : String)
    (hpq : p.data.isPrefixOf q.data = false)
    (hqp : q.data.isPrefixOf p.data = false) :
    ¬ (cStartsWith s p = true ∧ cStartsWith s q = true) := by
  rintro ⟨hp, hq⟩
  unfold cStartsWith at hp hq
  rw [List.isPrefixOf_iff_prefix] at hp hq
  rcases List.prefix_or_prefix_of_prefix hp hq with h | h
  · rw [← List.isPrefixOf_iff_prefix] at h
    exact absurd h (by simp [hpq])
  · rw [← List.isPrefixOf_iff_prefix] at h
    exact absurd h (by simp [hqp])

/-! ## Fault classification (`PrinterKilled`), claim C5 -/

/-- The fault-page lookup of `DgusTFT::PrinterKilled(error, component)`
(dgus_tft.cpp lines 313-371).  Each comparison in the source is
`strncmp(s, lit, strlen(lit)) == 0`, i.e. a prefix test; an unmatched
combination falls through with no page change (`none`). -/
def printerKilled (error component : String) : Option Nat :=
  if cStartsWith error "Heating Failed" then
    if cStartsWith component "Bed" then some PAGE_CHS_ABNORMAL_BED_HEATER
    else if cStartsWith component "E1" then some PAGE_CHS_ABNORMAL_HOTEND_HEATER
    else none
  else if cStartsWith error "Err: MINTEMP" then
    if cStartsWith component "Bed" then some PAGE_CHS_ABNORMAL_BED_NTC
    else if cStartsWith component "E1" then some PAGE_CHS_ABNORMAL_HOTEND_NTC
    else none
  else if cStartsWith error "Err: MAXTEMP" then
    if cStartsWith component "Bed" then some PAGE_CHS_ABNORMAL_BED_NTC
    else if cStartsWith component "E1" then some PAGE_CHS_ABNORMAL_HOTEND_NTC
    else none
  else if cStartsWith error "THERMAL RUNAWAY" then
    if cStartsWith component "Bed" then some PAGE_CHS_ABNORMAL_BED_HEATER
    else if cStartsWith component "E1" then some PAGE_CHS_ABNORMAL_HOTEND_HEATER
    else none
  else if cStartsWith error "Homing Failed" then
    if cStartsWith component "X" then some PAGE_CHS_ABNORMAL_X_ENDSTOP
    else if cStartsWith component "Y" then some PAGE_CHS_ABNORMAL_Y_ENDSTOP
    else if cStartsWith component "Z" then some PAGE_CHS_ABNORMAL_Z_ENDSTOP
    else none
  else none

/-- Does the error kind match one of the five recognized error prefixes
of `PrinterKilled`? -/
def recognizedErrorKind (error : String) : Bool :=
  cStartsWith error "Heating Failed" || cStartsWith error "Err: MINTEMP"
    || cStartsWith error "Err: MAXTEMP" || cStartsWith error "THERMAL RUNAWAY"
    || cStartsWith error "Homing Failed"

/-- Does the component match one of the component prefixes recognized
for the given error kind (X/Y/Z for a homing failure, Bed/E1 for the
thermal errors)? -/
def recognizedComponent (error component : String) : Bool :=
  if cStartsWith error "Homing Failed" then
    cStartsWith component "X" || cStartsWith component "Y"
      || cStartsWith component "Z"
  else
    cStartsWith component "Bed" || cStartsWith component "E1"

/-- C5: the pair (MINTEMP, Bed) always selects the bed-thermistor fault
page, (MINTEMP, E1) always selects the hotend-thermistor fault page, and
a pair whose error kind or component is not recognized triggers no page
change at all. -/
theorem printerKilled_fault_table (error component : String)
    (hbad : recognizedErrorKind error = false
      ∨ recognizedComponent error component = false) :
    printerKilled "Err: MINTEMP" "Bed" = some PAGE_CHS_ABNORMAL_BED_NTC ∧
    printerKilled "Err: MINTEMP" "E1" = some PAGE_CHS_ABNORMAL_HOTEND_NTC ∧
    printerKilled error component = none := by
  refine ⟨by decide, by decide, ?_⟩
  rcases hbad with h | h
  · simp only [recognizedErrorKind, Bool.or_eq_false_iff] at h
    obtain ⟨⟨⟨⟨h1, h2⟩, h3⟩, h4⟩, h5⟩ := h
    simp [printerKilled, h1, h2, h3, h4, h5]
  · simp only [recognizedComponent] at h
    by_cases hh : cStartsWith error "Homing Failed" = true
    · have hHeat : cStartsWith error "Heating Failed" = false := by
        have hex := cStartsWith_exclusive error "Heating Failed" "Homing Failed"
          (by decide) (by decide)
        revert hex
        cases cStartsWith error "Heating Failed" <;> simp [hh]
      have hMin : cStartsWith error "Err: MINTEMP" = false := by
        have hex := cStartsWith_exclusive error "Err: MINTEMP" "Homing Failed"
          (by decide) (by decide)
        revert hex
        cases cStartsWith error "Err: MINTEMP" <;> simp [hh]
      have hMax : cStartsWith error "Err: MAXTEMP" = false := by
        have hex := cStartsWith_exclusive error "Err: MAXTEMP" "Homing Failed"
          (by decide) (by decide)
        revert hex
        cases cStartsWith error "Err: MAXTEMP" <;> simp [hh]
      have hTh : cStartsWith error "THERMAL RUNAWAY" = false := by
        have hex := cStartsWith_exclusive error "THERMAL RUNAWAY" "Homing Failed"
          (by decide) (by decide)
        revert hex
        cases cStartsWith error "THERMAL RUNAWAY" <;> simp [hh]
      rw [if_pos hh] at h
      simp only [Bool.or_eq_false_iff] at h
      obtain ⟨⟨hx, hy⟩, hz⟩ := h
      simp [printerKilled, hHeat, hMin, hMax, hTh, hh, hx, hy, hz]
    · rw [if_neg hh] at h
      simp only [Bool.or_eq_false_iff] at h
      obtain ⟨hbed, he1⟩ := h
      simp only [Bool.not_eq_true] at hh
      simp [printerKilled, hbed, he1, hh]

/-- Witness for C5: an unrecognized component yields no page change. -/
theorem printerKilled_fault_table_witness :
    printerKilled "Err: MINTEMP" "Bed" = some PAGE_CHS_ABNORMAL_BED_NTC ∧
    printerKilled "Err: MINTEMP" "E1" = some PAGE_CHS_ABNORMAL_HOTEND_NTC ∧
    printerKilled "Err: MINTEMP" "Chamber" = none :=
  printerKilled_fault_table "Err: MINTEMP" "Chamber" (Or.inr (by decide))

/-! ## Status-text classifier (`StatusChange`), claim C3 -/

/-- Modelled from the spec: the status templates `MARLIN_msg_...` are
declared in a header that is not part of the sources; the spec names the
"probing point" prefix template. -/
def MARLIN_msg_probing_point : String := "Probing Point"

/-- Modelled from the spec: the generic "ready" message template,
compared after skipping the configured custom-machine-name prefix. -/
def MARLIN_msg_ready : String := " Ready."

/-- Modelled from the spec: the "probing failed" template. -/
def MARLIN_msg_probing_failed : String := "Probing Failed"

/-- Modelled from the spec: the probe-preheat start template. -/
def MARLIN_msg_probe_preheat_start : String := "Probe Preheating"

/-- Modelled from the spec: the probe-preheat stop template. -/
def MARLIN_msg_probe_preheat_stop : String := "Probe Heating Done"

/-- Modelled from the spec: the "reheating" template. -/
def MARLIN_msg_reheating : String := "Reheating..."

/-- Modelled from the spec: the "media removed" template. -/
def MARLIN_msg_media_removed : String := "Media Removed"

/-- Modelled from the spec: the "print paused" template. -/
def MARLIN_msg_print_paused : String := "Print Paused"

/-- Modelled from the spec: the "print aborted" template. -/
def MARLIN_msg_print_aborted : String := "Print Aborted"

/-- Modelled from the spec: the hotend-heating template. -/
def MARLIN_msg_extruder_heating : String := "E Heating..."

/-- Modelled from the spec: the bed-heating template. -/
def MARLIN_msg_bed_heating : String := "Bed Heating..."

/-- The mutable panel-engine state read and written by `StatusChange`:
the printer and pause states, the static probe counter (a `uint8_t`),
and the two heater states. -/
structure DgusState where
  printer_state : PrinterState
  pause_state : PauseState
  probe_cnt : Nat
  hotend_state : HeaterState
  hotbed_state : HeaterState
deriving DecidableEq

/-- One call to `DgusTFT::StatusChange(msg)` (dgus_tft.cpp lines
547-664), parameterized by the configured machine name
(`CUSTOM_MACHINE_NAME`) and total grid-point count
(`GRID_MAX_POINTS_X * GRID_MAX_POINTS_Y`), both compile-time
configuration that is not part of the sources.  The classifier is
state-scoped: the same text acts differently depending on
`printer_state`.  Returns the new state and the effects issued. -/
def statusChange (machineName : String) (gridPoints : Nat)
    (s : DgusState) (msg : String) : DgusState × List PanelEffect :=
  let fallback := fun (matched : Bool) (s1 : DgusState) =>
    if matched then s1
    else if msg = MARLIN_msg_extruder_heating then
      { s1 with hotend_state := .temp_set }
    else if msg = MARLIN_msg_bed_heating then
      { s1 with hotbed_state := .temp_set }
    else s1
  match s.printer_state with
  | .probing =>
    let cnt1 := if cStartsWith msg MARLIN_msg_probing_point then
        (s.probe_cnt + 1) % 256
      else s.probe_cnt
    let s1 := { s with probe_cnt := cnt1 }
    let fire := cDropEq msg machineName.length MARLIN_msg_ready
      && decide (cnt1 = gridPoints)
    let s2 := if fire then
        { s1 with probe_cnt := 0, printer_state := .idle }
      else s1
    let e2 := if fire then
        [PanelEffect.inject "M500", PanelEffect.fakeChangePage PAGE_PreLEVEL]
      else []
    let fails := decide (msg = MARLIN_msg_probing_failed)
    let s3 := if fails then { s2 with printer_state := .idle } else s2
    let e3 := if fails then
        [PanelEffect.playTune, PanelEffect.inject "G1 Z50 F500",
          PanelEffect.changePage PAGE_CHS_ABNORMAL_LEVELING_SENSOR]
      else []
    let e4 := if msg = MARLIN_msg_probe_preheat_start then
        [PanelEffect.changePage PAGE_CHS_PROBE_PREHEATING]
      else []
    let e5 := if msg = MARLIN_msg_probe_preheat_stop then
        [PanelEffect.changePage PAGE_LEVELING]
      else []
    (fallback (fire || fails) s3, e2 ++ e3 ++ e4 ++ e5)
  | .printing =>
    if msg = MARLIN_msg_reheating then
      (fallback true s, [PanelEffect.changePage PAGE_STATUS2])
    else if msg = MARLIN_msg_media_removed then
      (fallback true { s with printer_state := .stopping_from_media_remove }, [])
    else
      (fallback false s, [PanelEffect.setFilamentRunout false])
  | .pausing =>
    if msg = MARLIN_msg_print_paused then
      if s.pause_state ≠ PauseState.filament_lack then
        (fallback true { s with pause_state := .idle, printer_state := .paused },
          [PanelEffect.changePage PAGE_STATUS1])
      else
        (fallback true { s with printer_state := .paused }, [])
    else (fallback false s, [])
  | .paused =>
    if msg = MARLIN_msg_print_paused then
      if s.pause_state ≠ PauseState.filament_lack then
        (fallback true { s with pause_state := .idle, printer_state := .paused },
          [PanelEffect.changePage PAGE_STATUS1])
      else
        (fallback true { s with printer_state := .paused }, [])
    else (fallback false s, [])
  | .stopping =>
    if msg = MARLIN_msg_print_aborted then
      (fallback true { s with printer_state := .idle },
        [PanelEffect.changePage PAGE_MAIN])
    else (fallback false s, [])
  | _ => (fallback false s, [])

/-- Running `StatusChange` over a sequence of status messages,
accumulating the issued effects in order. -/
def runStatus (machineName : String) (gridPoints : Nat) :
    DgusState → List String → DgusState × List PanelEffect
  | s, [] => (s, [])
  | s, m :: ms =>
    let r1 := statusChange machineName gridPoints s m
    let r2 := runStatus machineName gridPoints r1.1 ms
    (r2.1, r1.2 ++ r2.2)

/-- Effect accumulation of `runStatus` distributes over appending
message lists. -/
theorem runStatus_append (machineName : String) (gridPoints : Nat)
    (s : DgusState) (l1 l2 : List String) :
    runStatus machineName gridPoints s (l1 ++ l2)
      = ((runStatus machineName gridPoints
            (runStatus machineName gridPoints s l1).1 l2).1,
          (runStatus machineName gridPoints s l1).2
            ++ (runStatus machineName gridPoints
                  (runStatus machineName gridPoints s l1).1 l2).2) := by
  induction l1 generalizing s with
  | nil => simp [runStatus]
  | cons m ms ih =>
    simp only [List.cons_append, runStatus, List.append_eq, ih, List.append_assoc]

/-- Processing one probing-point message while probing: the counter
increments and nothing else happens.  Hypotheses state that the message
matches the probing-point prefix but none of the other templates checked
in the probing case, and that the counter does not wrap. -/
theorem statusChange_probing_point (machineName : String) (gridPoints : Nat)
    (s : DgusState) (pm : String)
    (hs : s.printer_state = .probing)
    (hcnt : s.probe_cnt + 1 < 256)
    (h1 : cStartsWith pm MARLIN_msg_probing_point = true)
    (h2 : cDropEq pm machineName.length MARLIN_msg_ready = false)
    (h3 : pm ≠ MARLIN_msg_probing_failed)
    (h4 : pm ≠ MARLIN_msg_probe_preheat_start)
    (h5 : pm ≠ MARLIN_msg_probe_preheat_stop)
    (h6 : pm ≠ MARLIN_msg_extruder_heating)
    (h7 : pm ≠ MARLIN_msg_bed_heating) :
    statusChange machineName gridPoints s pm
      = ({ s with probe_cnt := s.probe_cnt + 1 }, []) := by
  have hmod : (s.probe_cnt + 1) % 256 = s.probe_cnt + 1 :=
    Nat.mod_eq_of_lt hcnt
  simp [statusChange, hs, h1, h2, h3, h4, h5, h6, h7, hmod]

/-- Processing `k` successive probing-point messages while probing adds
`k` to the counter and issues no effect. -/
theorem runStatus_probing_points (machineName : String) (gridPoints : Nat)
    (pm : String)
    (h1 : cStartsWith pm MARLIN_msg_probing_point = true)
    (h2 : cDropEq pm machineName.length MARLIN_msg_ready = false)
    (h3 : pm ≠ MARLIN_msg_probing_failed)
    (h4 : pm ≠ MARLIN_msg_probe_preheat_start)
    (h5 : pm ≠ MARLIN_msg_probe_preheat_stop)
    (h6 : pm ≠ MARLIN_msg_extruder_heating)
    (h7 : pm ≠ MARLIN_msg_bed_heating) :
    ∀ (k : Nat) (s : DgusState), s.printer_state = .probing →
      s.probe_cnt + k < 256 →
      runStatus machineName gridPoints s (List.replicate k pm)
        = ({ s with probe_cnt := s.probe_cnt + k }, []) := by
  intro k
  induction k with
  | zero => intro s hs _; simp [runStatus]
  | succ n ih =>
    intro s hs hcnt
    rw [List.replicate_succ]
    have hstep := statusChange_probing_point machineName gridPoints s pm hs
      (by omega) h1 h2 h3 h4 h5 h6 h7
    have hrest := ih { s with probe_cnt := s.probe_cnt + 1 } (by simp [hs])
      (by simp; omega)
    simp only [runStatus, hstep, hrest]
    simp [Nat.add_assoc, Nat.add_comm 1 n]

/-- Processing the "ready" message while probing: the transition to idle
with a persisted-settings command and a silent return to the
pre-leveling page fires exactly when the probe counter equals the
configured grid-point total; otherwise nothing happens. -/
theorem statusChange_ready (machineName : String) (gridPoints : Nat)
    (s : DgusState) (rm : String)
    (hs : s.printer_state = .probing)
    (hrm1 : cDropEq rm machineName.length MARLIN_msg_ready = true)
    (hrm2 : cStartsWith rm MARLIN_msg_probing_point = false)
    (hrm3 : rm ≠ MARLIN_msg_probing_failed)
    (hrm4 : rm ≠ MARLIN_msg_probe_preheat_start)
    (hrm5 : rm ≠ MARLIN_msg_probe_preheat_stop)
    (hrm6 : rm ≠ MARLIN_msg_extruder_heating)
    (hrm7 : rm ≠ MARLIN_msg_bed_heating) :
    statusChange machineName gridPoints s rm
      = if s.probe_cnt = gridPoints then
          ({ s with probe_cnt := 0, printer_state := .idle },
            [PanelEffect.inject "M500",
              PanelEffect.fakeChangePage PAGE_PreLEVEL])
        else (s, []) := by
  obtain ⟨ps, pa, pc, hh, hb⟩ := s
  cases hs
  by_cases hc : pc = gridPoints <;>
    simp [statusChange, hrm1, hrm2, hrm3, hrm4, hrm5, hrm6, hrm7, hc]

/-- C3: while probing, `StatusChange` counts "probing point" messages;
after exactly `gridPoints` of them the "ready" message (compared after
skipping the machine-name prefix) injects exactly one `M500`, silently
returns to the pre-leveling page, and resets the state to idle; with one
fewer probing-point message the "ready" message triggers no transition
and no command at all. -/
theorem probing_grid_completion (machineName : String) (gridPoints : Nat)
    (s0 : DgusState) (pm rm : String)
    (hg1 : 0 < gridPoints) (hg2 : gridPoints < 256)
    (hs1 : s0.printer_state = .probing) (hs2 : s0.probe_cnt = 0)
    (hpm1 : cStartsWith pm MARLIN_msg_probing_point = true)
    (hpm2 : cDropEq pm machineName.length MARLIN_msg_ready = false)
    (hpm3 : pm ≠ MARLIN_msg_probing_failed)
    (hpm4 : pm ≠ MARLIN_msg_probe_preheat_start)
    (hpm5 : pm ≠ MARLIN_msg_probe_preheat_stop)
    (hpm6 : pm ≠ MARLIN_msg_extruder_heating)
    (hpm7 : pm ≠ MARLIN_msg_bed_heating)
    (hrm1 : cDropEq rm machineName.length MARLIN_msg_ready = true)
    (hrm2 : cStartsWith rm MARLIN_msg_probing_point = false)
    (hrm3 : rm ≠ MARLIN_msg_probing_failed)
    (hrm4 : rm ≠ MARLIN_msg_probe_preheat_start)
    (hrm5 : rm ≠ MARLIN_msg_probe_preheat_stop)
    (hrm6 : rm ≠ MARLIN_msg_extruder_heating)
    (hrm7 : rm ≠ MARLIN_msg_bed_heating) :
    ((runStatus machineName gridPoints s0
        (List.replicate gridPoints pm ++ [rm])).1.printer_state
          = PrinterState.idle ∧
      (runStatus machineName gridPoints s0
        (List.replicate gridPoints pm ++ [rm])).2
          = [PanelEffect.inject "M500",
              PanelEffect.fakeChangePage PAGE_PreLEVEL]) ∧
    ((runStatus machineName gridPoints s0
        (List.replicate (gridPoints - 1) pm ++ [rm])).1.printer_state
          = PrinterState.probing ∧
      (runStatus machineName gridPoints s0
        (List.replicate (gridPoints - 1) pm ++ [rm])).2 = []) := by
  have hfull := runStatus_probing_points machineName gridPoints pm
    hpm1 hpm2 hpm3 hpm4 hpm5 hpm6 hpm7 gridPoints s0 hs1 (by omega)
  have hpart := runStatus_probing_points machineName gridPoints pm
    hpm1 hpm2 hpm3 hpm4 hpm5 hpm6 hpm7 (gridPoints - 1) s0 hs1 (by omega)
  constructor
  · rw [runStatus_append, hfull]
    have hready := statusChange_ready machineName gridPoints
      { s0 with probe_cnt := s0.probe_cnt + gridPoints } rm (by simp [hs1])
      hrm1 hrm2 hrm3 hrm4 hrm5 hrm6 hrm7
    rw [if_pos (by simp [hs2])] at hready
    simp [runStatus, hready]
  · rw [runStatus_append, hpart]
    have hready := statusChange_ready machineName gridPoints
      { s0 with probe_cnt := s0.probe_cnt + (gridPoints - 1) } rm
      (by simp [hs1]) hrm1 hrm2 hrm3 hrm4 hrm5 hrm6 hrm7
    rw [if_neg (by simp [hs2]; omega)] at hready
    simp only [runStatus, hready]
    exact ⟨hs1, by simp⟩

/-- Sample panel state with the probing sub-protocol active. -/
def sampleProbing : DgusState :=
  { printer_state := .probing, pause_state := .idle, probe_cnt := 0
    hotend_state := .off, hotbed_state := .off }

/-- Witness for C3 at concrete inputs: machine name Kobra, the 5x5 grid
of this firmware, a concrete probing-point line and the concrete ready
line. -/
theorem probing_grid_completion_witness :
    ((runStatus "Kobra" 25 sampleProbing
        (List.replicate 25 "Probing Point 1/25" ++ ["Kobra Ready."])).1.printer_state
          = PrinterState.idle ∧
      (runStatus "Kobra" 25 sampleProbing
        (List.replicate 25 "Probing Point 1/25" ++ ["Kobra Ready."])).2
          = [PanelEffect.inject "M500",
              PanelEffect.fakeChangePage PAGE_PreLEVEL]) ∧
    ((runStatus "Kobra" 25 sampleProbing
        (List.replicate (25 - 1) "Probing Point 1/25" ++ ["Kobra Ready."])).1.printer_state
          = PrinterState.probing ∧
      (runStatus "Kobra" 25 sampleProbing
        (List.replicate (25 - 1) "Probing Point 1/25" ++ ["Kobra Ready."])).2 = []) :=
  probing_grid_completion "Kobra" 25 sampleProbing "Probing Point 1/25"
    "Kobra Ready." (by decide) (by decide) (by decide) (by decide) (by decide)
    (by decide) (by decide) (by decide) (by decide) (by decide) (by decide)
    (by decide) (by decide) (by decide) (by decide) (by decide) (by decide)
    (by decide)

/-! ## Boot scenario and outage-recovery panel display, claim C7 -/

/-- Modelled from the spec: the progress text rendering (`ui8tostr3rj`
is declared in `libs/numtostr.h`, which is not part of the sources); per
the spec the print-progress percentage is rendered as its decimal
string. -/
def renderProgress (p : Nat) : String := toString p

/-- The startup-gif branch of `DgusTFT::ProcessPanelRequest` for
`REG_LCD_READY` (dgus_tft.cpp lines 1262-1272): when the printer is
resuming from a power outage, show the outage-recovery page, push the
long filename and the rendered progress text, and play the SOS tune;
otherwise show the main page. -/
def lcdStartupOutage (ps : PrinterState) (longFilename : String)
    (progress : Nat) : List PanelEffect :=
  if ps = PrinterState.resuming_from_power_outage then
    [PanelEffect.changePage PAGE_OUTAGE_RECOVERY,
      PanelEffect.sendTxt TXT_OUTAGE_RECOVERY_FILE longFilename,
      PanelEffect.sendTxt TXT_OUTAGE_RECOVERY_PROGRESS
        (renderProgress progress),
      PanelEffect.playTune]
  else
    [PanelEffect.changePage PAGE_MAIN]

/-- The persisted snapshot of the C7 scenario: markers 3/3, progress 42,
filename `/TEST.GCO`. -/
def bootFlashC7 : JobRecoveryInfo :=
  { zeroInfo with
    valid_head := 3
    valid_foot := 3
    print_progress := 42
    sd_filename := "/TEST.GCO" }

/-- C7: booting with the snapshot `head=3, foot=3, print_progress=42,
sd_filename="/TEST.GCO"` makes `check()` accept the record and inject
exactly the single command `M1000S`, and the subsequent outage-recovery
panel display renders the progress text as the string `42`. -/
theorem boot_recovery_scenario :
    check true zeroInfo bootFlashC7 = (bootFlashC7, ["M1000S"]) ∧
    lcdStartupOutage PrinterState.resuming_from_power_outage "TEST.GCO"
        bootFlashC7.print_progress
      = [PanelEffect.changePage PAGE_OUTAGE_RECOVERY,
          PanelEffect.sendTxt TXT_OUTAGE_RECOVERY_FILE "TEST.GCO",
          PanelEffect.sendTxt TXT_OUTAGE_RECOVERY_PROGRESS "42",
          PanelEffect.playTune] := by
  constructor
  · rfl
  · rfl

/-! ## Resume sequencer (`PrintJobRecovery::resume`), claim C2 -/

/-- Printer axes named in homing commands. -/
inductive Axis where
  | X
  | Y
  | Z
deriving DecidableEq

/-- The G-code commands emitted by `resume()` through
`process_subcommands_now`, one constructor per distinct command shape in
the source (powerloss.cpp lines 407-744).  Multi-line strings are split
into their individual commands. -/
inductive GCmd where
  | M420 (s : Bool) (z : ℚ)
  | M140 (s : Nat)
  | M104 (s : Nat)
  | M190 (s : Nat)
  | M109 (s : Nat)
  | G92_9_E0_Z (z : ℚ)
  | G92_9_E0_Z0
  | G1_Zraise (z : ℚ)
  | G28_R2 (axes : List Axis)
  | M200_D (d : ℚ)
  | M106 (p s : Nat)
  | G1_E_F3000 (len : Nat)
  | G1_E_F200 (len : Nat)
  | G12
  | G92_9_Z (z : ℚ)
  | M400
  | G4_P1000
  | G1_XY_F3000 (x y : ℚ)
  | G1_Z_F200 (z : ℚ)
  | G1_F (f : Nat)
  | G92_9_E (e : ℚ)
  | M23 (fn : String)
  | M24_S_T (sdpos elapsed : Nat)
deriving DecidableEq

/-- Build-time configuration options of `resume()` whose value does not
follow from the sources; the fixed choices of this machine — Cartesian
kinematics, `Z_HOME_DIR < 0`, `POWER_LOSS_RECOVER_ZHOME` disabled (per
the spec, only X and Y are homed), leveling, heated bed, a single
hotend/extruder/fan — are baked into `resume` below. -/
structure ResumeCfg where
  backupPower : Bool
  retractLen : Nat
  purgeLen : Nat
  nozzleClean : Bool
  babystepping : Bool
deriving DecidableEq

/-- The ordered command sequence issued by `PrintJobRecovery::resume()`
(powerloss.cpp lines 407-744) on this machine's configuration: disable
leveling, set bed/hotend targets non-blocking, wait on bed then hotend,
reset E (restoring the outage Z raise), home X/Y with a 2 mm raise,
restore volumetrics, fans, leveling state, un-retract and purge, nozzle
clean, babystep Z correction, move to the saved X/Y, descend to the
saved Z, restore feedrate and E, then restart the file at the saved
offset and elapsed time. -/
def resume (cfg : ResumeCfg) (info : JobRecoveryInfo) : List GCmd :=
  [GCmd.M420 false 0]
  ++ (if info.target_temperature_bed ≠ 0 then
        [GCmd.M140 info.target_temperature_bed] else [])
  ++ (if info.target_temperature ≠ 0 then
        [GCmd.M104 info.target_temperature] else [])
  ++ (if info.target_temperature_bed ≠ 0 then
        [GCmd.M190 info.target_temperature_bed] else [])
  ++ (if info.target_temperature ≠ 0 then
        [GCmd.M109 info.target_temperature] else [])
  ++ (if cfg.backupPower then [GCmd.G92_9_E0_Z info.zraise]
      else [GCmd.G92_9_E0_Z0, GCmd.G1_Zraise info.zraise])
  ++ [GCmd.G28_R2 [Axis.X, Axis.Y]]
  ++ (if info.volumetric_enabled then [GCmd.M200_D info.filament_size]
      else [])
  ++ (if info.fan_speed ≠ 0 then [GCmd.M106 0 info.fan_speed] else [])
  ++ (if info.fade ≠ 0 ∨ info.leveling = true then
        [GCmd.M420 info.leveling info.fade] else [])
  ++ (if cfg.retractLen ≠ 0 then [GCmd.G1_E_F3000 cfg.retractLen] else [])
  ++ (if cfg.purgeLen ≠ 0 then
        [GCmd.G1_E_F200 (cfg.purgeLen + cfg.retractLen)] else [])
  ++ (if cfg.nozzleClean then [GCmd.G12] else [])
  ++ (if cfg.babystepping then
        [GCmd.G92_9_Z (info.z + 2), GCmd.M400, GCmd.G4_P1000] else [])
  ++ [GCmd.G1_XY_F3000 info.x info.y, GCmd.M400, GCmd.G1_Z_F200 info.z,
      GCmd.G1_F info.feedrate, GCmd.G92_9_E info.e, GCmd.M23 info.sd_filename,
      GCmd.M24_S_T info.sdpos info.print_job_elapsed]

/-- Selects the four temperature commands. -/
def isTempCmd : GCmd → Bool
  | .M140 _ => true
  | .M104 _ => true
  | .M190 _ => true
  | .M109 _ => true
  | _ => false

/-- Selects the extruder-reset (`G92.9 E0 ...`) and homing commands. -/
def isEresetOrHome : GCmd → Bool
  | .G92_9_E0_Z _ => true
  | .G92_9_E0_Z0 => true
  | .G28_R2 _ => true
  | _ => false

/-- Selects the homing commands. -/
def isHomeCmd : GCmd → Bool
  | .G28_R2 _ => true
  | _ => false

/-- Selects the closing motion/restart commands: the move to the saved
X/Y, the descent to the saved Z, the feedrate restore, and the file
restart pair. -/
def isTailCmd : GCmd → Bool
  | .G1_XY_F3000 _ _ => true
  | .G1_Z_F200 _ => true
  | .G1_F _ => true
  | .M23 _ => true
  | .M24_S_T _ _ => true
  | _ => false

/-- Filtering distributes into a conditional list. -/
theorem filter_ite_list (p : GCmd → Bool) (c : Prop) [Decidable c]
    (l1 l2 : List GCmd) :
    List.filter p (if c then l1 else l2)
      = if c then List.filter p l1 else List.filter p l2 := by
  split <;> rfl

set_option maxHeartbeats 2000000 in
/-- C2: `resume()` emits its commands in the specified order — the
leveling disable `M420 S0 Z0` is the very first command, hence before
any `G92.9`/`G28`; the temperature commands are exactly non-blocking bed
and hotend sets followed by the blocking bed wait and then the blocking
hotend wait; the extruder reset comes right before the single homing
command, which homes exactly the X and Y axes (no Z rehome); and the
closing commands are exactly the move to the saved X/Y, then the descent
to the saved Z, then the feedrate restore, then the restart of the file
at the saved offset and elapsed time. -/
theorem resume_command_order (cfg : ResumeCfg) (info : JobRecoveryInfo)
    (hbt : info.target_temperature_bed ≠ 0)
    (het : info.target_temperature ≠ 0) :
    (resume cfg info).head? = some (GCmd.M420 false 0) ∧
    (resume cfg info).filter isTempCmd
      = [GCmd.M140 info.target_temperature_bed,
          GCmd.M104 info.target_temperature,
          GCmd.M190 info.target_temperature_bed,
          GCmd.M109 info.target_temperature] ∧
    (resume cfg info).filter isEresetOrHome
      = [if cfg.backupPower then GCmd.G92_9_E0_Z info.zraise
          else GCmd.G92_9_E0_Z0,
          GCmd.G28_R2 [Axis.X, Axis.Y]] ∧
    (resume cfg info).filter isHomeCmd = [GCmd.G28_R2 [Axis.X, Axis.Y]] ∧
    (resume cfg info).filter isTailCmd
      = [GCmd.G1_XY_F3000 info.x info.y, GCmd.G1_Z_F200 info.z,
          GCmd.G1_F info.feedrate, GCmd.M23 info.sd_filename,
          GCmd.M24_S_T info.sdpos info.print_job_elapsed] := by
  refine ⟨by simp [resume], ?_, ?_, ?_, ?_⟩
  · simp [resume, List.filter_append, filter_ite_list, hbt, het,
      isTempCmd, List.filter]
  · by_cases hbp : cfg.backupPower = true <;>
      simp [resume, List.filter_append, filter_ite_list, hbp,
        isEresetOrHome, List.filter]
  · simp [resume, List.filter_append, filter_ite_list, isHomeCmd,
      List.filter]
  · simp [resume, List.filter_append, filter_ite_list, isTailCmd,
      List.filter]

/-- Sample snapshot for instantiating the resume theorem. -/
def sampleResumeInfo : JobRecoveryInfo :=
  { bootFlashC7 with
    x := 50
    y := 60
    z := 7
    e := 100
    feedrate := 1800
    target_temperature := 200
    target_temperature_bed := 60
    fan_speed := 128
    leveling := true
    fade := 10
    sdpos := 123456
    print_job_elapsed := 777 }

/-- Sample configuration (no backup power, as shipped). -/
def sampleResumeCfg : ResumeCfg :=
  { backupPower := false, retractLen := 0, purgeLen := 0
    nozzleClean := false, babystepping := true }

/-- Witness for C2 at a concrete configuration and snapshot. -/
theorem resume_command_order_witness :
    (resume sampleResumeCfg sampleResumeInfo).head?
        = some (GCmd.M420 false 0) ∧
    (resume sampleResumeCfg sampleResumeInfo).filter isTempCmd
      = [GCmd.M140 sampleResumeInfo.target_temperature_bed,
          GCmd.M104 sampleResumeInfo.target_temperature,
          GCmd.M190 sampleResumeInfo.target_temperature_bed,
          GCmd.M109 sampleResumeInfo.target_temperature] ∧
    (resume sampleResumeCfg sampleResumeInfo).filter isEresetOrHome
      = [if sampleResumeCfg.backupPower then
            GCmd.G92_9_E0_Z sampleResumeInfo.zraise
          else GCmd.G92_9_E0_Z0,
          GCmd.G28_R2 [Axis.X, Axis.Y]] ∧
    (resume sampleResumeCfg sampleResumeInfo).filter isHomeCmd
      = [GCmd.G28_R2 [Axis.X, Axis.Y]] ∧
    (resume sampleResumeCfg sampleResumeInfo).filter isTailCmd
      = [GCmd.G1_XY_F3000 sampleResumeInfo.x sampleResumeInfo.y,
          GCmd.G1_Z_F200 sampleResumeInfo.z,
          GCmd.G1_F sampleResumeInfo.feedrate,
          GCmd.M23 sampleResumeInfo.sd_filename,
          GCmd.M24_S_T sampleResumeInfo.sdpos
            sampleResumeInfo.print_job_elapsed] :=
  resume_command_order sampleResumeCfg sampleResumeInfo (by decide) (by decide)

/-! ## Power-loss interrupt path (`outage` / `_outage`), claims C8, C10 -/

/-- Observable side effects of the power-loss interrupt path
(powerloss.cpp lines 267-377): ADC samples, the heater/stepper pin
writes, the UI notification, the forced save, heater shutdown, stepper
stop, retract-and-lift, and the final kill. -/
inductive OutEff where
  | readADC
  | heater0Off
  | heaterBedOff
  | notifyPowerLoss
  | stepperXOff
  | stepperYOff
  | stepperZOff
  | forcedSave (zraise : ℚ)
  | disableAllHeaters
  | quickstop
  | retractAndLift (zraise : ℚ)
  | kill
deriving DecidableEq

/-- Build-time configuration of the outage path: whether
`BACKUP_POWER_SUPPLY` is enabled, the `POWER_LOSS_ZRAISE` amount, and
`Z_MAX_POS`. -/
structure OutageCfg where
  backupPower : Bool
  plZraise : ℚ
  zMax : ℚ
deriving DecidableEq

/-- The limited Z raise computed by `_outage` (powerloss.cpp line 351):
`_MAX(0, _MIN(z + POWER_LOSS_ZRAISE, Z_MAX_POS - 1) - z)`, or 0 when
`POWER_LOSS_ZRAISE` is 0 (the `#if` fallback). -/
def outageZraise (cfg : OutageCfg) (z : ℚ) : ℚ :=
  if cfg.plZraise ≠ 0 then max 0 (min (z + cfg.plZraise) (cfg.zMax - 1) - z)
  else 0

/-- The critical section of `_outage` (powerloss.cpp lines 349-376):
heater pins off, UI notification, stepper-driver disables, the forced
snapshot save when SD printing, full heater shutdown, and — with backup
power — the hard stepper stop and retract-and-lift, then kill. -/
def criticalTrace (cfg : OutageCfg) (sdPrinting : Bool) (z : ℚ) :
    List OutEff :=
  [OutEff.heater0Off, OutEff.heaterBedOff, OutEff.notifyPowerLoss,
    OutEff.stepperXOff, OutEff.stepperYOff, OutEff.stepperZOff]
  ++ (if sdPrinting then [OutEff.forcedSave (outageZraise cfg z)] else [])
  ++ [OutEff.disableAllHeaters]
  ++ (if cfg.backupPower then
        [OutEff.quickstop, OutEff.retractAndLift (outageZraise cfg z)]
      else [])
  ++ [OutEff.kill]

/-- One invocation of `PrintJobRecovery::_outage()` (powerloss.cpp lines
339-377).  With backup power the static one-shot `lock` guards the
critical section: a locked call returns immediately with no effect, an
unlocked call sets the lock (which is never cleared) before running the
critical section. -/
def outageStep (cfg : OutageCfg) (sdPrinting : Bool) (z : ℚ)
    (lock : Bool) : Bool × List OutEff :=
  if cfg.backupPower = true ∧ lock = true then (lock, [])
  else ((if cfg.backupPower = true then true else lock),
    criticalTrace cfg sdPrinting z)

/-- Iterating `_outage` `n` times (re-entry from `idle()` during
`retract_and_lift` behaves like a further invocation against the
already-set lock), threading the lock and concatenating the effects. -/
def iterOutage (cfg : OutageCfg) (sdPrinting : Bool) (z : ℚ) :
    Nat → Bool → Bool × List OutEff
  | 0, lock => (lock, [])
  | n + 1, lock =>
    let r1 := outageStep cfg sdPrinting z lock
    let r2 := iterOutage cfg sdPrinting z n r1.1
    (r2.1, r1.2 ++ r2.2)

/-- A locked `_outage` iteration produces nothing at all. -/
theorem iterOutage_locked (cfg : OutageCfg) (sdPrinting : Bool) (z : ℚ)
    (hbp : cfg.backupPower = true) :
    ∀ n : Nat, iterOutage cfg sdPrinting z n true = (true, []) := by
  intro n
  induction n with
  | zero => rfl
  | succ k ih =>
    simp [iterOutage, outageStep, hbp, ih]

/-- C8: with the backup-power one-shot lock in place, however many times
the outage path runs before the system halts, the critical section —
heater shutdown, forced save, stepper stop, retract-and-lift, kill —
executes at most once: the accumulated effect trace of `n` invocations
from the unlocked state is empty for `n = 0` and exactly one critical
trace otherwise. -/
theorem outage_critical_once (cfg : OutageCfg) (sdPrinting : Bool) (z : ℚ)
    (n : Nat) (hbp : cfg.backupPower = true) :
    (iterOutage cfg sdPrinting z n false).2
      = if n = 0 then [] else criticalTrace cfg sdPrinting z := by
  cases n with
  | zero => rfl
  | succ k =>
    simp [iterOutage, outageStep, hbp, iterOutage_locked cfg sdPrinting z hbp k]

/-- Sample outage configuration with backup power. -/
def sampleOutageCfg : OutageCfg :=
  { backupPower := true, plZraise := 2, zMax := 220 }

/-- Witness for C8: three invocations produce exactly one critical
trace. -/
theorem outage_critical_once_witness :
    (iterOutage sampleOutageCfg true 5 3 false).2
      = if 3 = 0 then [] else criticalTrace sampleOutageCfg true 5 :=
  outage_critical_once sampleOutageCfg true 5 3 rfl

/-- The mutable state read and written by `PrintJobRecovery::outage()`:
the `enabled` flag, the static debounce counter `cnt`, the static
`adc_raw_last` sample, and the `_outage` lock. -/
structure OutageState where
  enabled : Bool
  cnt : Nat
  adc_raw_last : Nat
  lock : Bool
deriving DecidableEq

/-- One invocation of `PrintJobRecovery::outage()` (powerloss.cpp lines
267-296) with the three ADC samples it may take passed as `v1`, `v2`,
`v3` in sampling order.  When recovery is disabled the function returns
before sampling anything.  Otherwise: below the 2200 threshold a
debounce count of 4 or more triggers `_outage`, and the counter
increments when the voltage is still falling; at or above the threshold
the counter resets; the last sample is always stored. -/
def outage (cfg : OutageCfg) (sdPrinting : Bool) (z : ℚ)
    (v1 v2 v3 : Nat) (s : OutageState) : OutageState × List OutEff :=
  if s.enabled = false then (s, [])
  else if v1 < 2200 then
    let r := if 4 ≤ s.cnt then outageStep cfg sdPrinting z s.lock
      else (s.lock, [])
    let cnt1 := if v2 < s.adc_raw_last then s.cnt + 1 else s.cnt
    ({ s with cnt := cnt1, adc_raw_last := v3, lock := r.1 },
      [OutEff.readADC] ++ r.2 ++ [OutEff.readADC, OutEff.readADC])
  else
    ({ s with cnt := 0, adc_raw_last := v3 },
      [OutEff.readADC, OutEff.readADC])

/-- C10: whenever recovery is disabled, `outage()` returns immediately:
the state — debounce counter, stored ADC sample, lock — is unchanged and
no effect at all is produced (no voltage sampling, no save, no heater or
stepper switching, no halt), even during an active SD print with the
sensed voltage below the outage threshold. -/
theorem outage_disabled_noop (cfg : OutageCfg) (sdPrinting : Bool) (z : ℚ)
    (v1 v2 v3 : Nat) (s : OutageState) (hdis : s.enabled = false) :
    outage cfg sdPrinting z v1 v2 v3 s = (s, []) := by
  simp [outage, hdis]

/-- Witness for C10: recovery disabled during an SD print with the
sensed voltage far below the threshold. -/
theorem outage_disabled_noop_witness :
    outage sampleOutageCfg true 5 1000 900 800
        { enabled := false, cnt := 4, adc_raw_last := 1100, lock := false }
      = ({ enabled := false, cnt := 4, adc_raw_last := 1100, lock := false },
          []) :=
  outage_disabled_noop sampleOutageCfg true 5 1000 900 800
    { enabled := false, cnt := 4, adc_raw_last := 1100, lock := false } rfl

/-! ## Frame decoder (`ReadTFTCommand`), claim C9 -/

/-- The decoder state of `DgusTFT::ReadTFTCommand` (dgus_tft.cpp lines
940-1004): the static step/length/count variables and the class members
`data_index` and `data_received`.  The receive buffer itself is
`uint8_t data_buf[64]` (dgus_tft.cpp line 115); stores into it are
reported as effects below rather than kept in the state. -/
structure DecState where
  steps : Nat
  length : Nat
  cnt : Nat
  data_index : Nat
  data_received : Bool
deriving DecidableEq

/-- Running `ReadTFTCommand` over an inbound byte list, returning the
final decoder state and every buffer store `(index, byte)` performed, in
order.  One invocation consumes one byte, except in the sync step where
the second sync byte is awaited within the same call (an empty rest
models the 500 ms timeout, which clears `data_index`/`data_received`).
While `data_received` is still set the function returns without reading.
In the payload step, an index at or past 63 resets the index and frame
flag without storing; otherwise the byte is stored at the current index
and a frame is completed once `cnt` reaches `length`. -/
def decodeStream : DecState → List Nat → DecState × List (Nat × Nat)
  | s, [] => (s, [])
  | s, data :: rest =>
    if s.data_received = true then (s, [])
    else if s.steps = 0 then
      if data ≠ 0x5A then
        decodeStream
          { s with cnt := 0, length := 0, data_index := 0, data_received := false }
          rest
      else
        match rest with
        | [] => ({ s with data_index := 0, data_received := false }, [])
        | d2 :: rest2 =>
          if d2 = 0xA5 then decodeStream { s with steps := 2 } rest2
          else decodeStream s rest2
    else if s.steps = 2 then
      decodeStream
        { s with length := data % 256, steps := 3, data_index := 0, cnt := 0 }
        rest
    else if s.steps = 3 then
      if 63 ≤ s.data_index then
        decodeStream { s with data_index := 0, data_received := false } rest
      else
        if s.length ≤ s.cnt + 1 then
          let r := decodeStream
            { s with steps := 0, cnt := 0, data_index := 0, data_received := true }
            rest
          (r.1, (s.data_index, data % 256) :: r.2)
        else
          let r := decodeStream
            { s with data_index := s.data_index + 1, cnt := s.cnt + 1 } rest
          (r.1, (s.data_index, data % 256) :: r.2)
    else decodeStream s rest

/-- Auxiliary bound for C9, by strong induction on the stream length:
every buffer store performed by the decoder, from any state, uses an
index below 63. -/
theorem decodeStream_writes_bounded_aux :
    ∀ (n : Nat) (bytes : List Nat), bytes.length ≤ n →
      ∀ (s : DecState) (w : Nat × Nat),
        w ∈ (decodeStream s bytes).2 → w.1 < 63 := by
  intro n
  induction n with
  | zero =>
    intro bytes hlen s w hw
    rw [List.length_eq_zero.mp (Nat.le_zero.mp hlen)] at hw
    simp [decodeStream] at hw
  | succ k ih =>
    intro bytes hlen s w hw
    match bytes with
    | [] => simp [decodeStream] at hw
    | data :: rest =>
      have hrest : rest.length ≤ k := by
        simp only [List.length_cons] at hlen
        omega
      rw [decodeStream.eq_def] at hw
      simp only [] at hw
      by_cases h1 : s.data_received = true
      · simp [h1] at hw
      · rw [if_neg h1] at hw
        by_cases h2 : s.steps = 0
        · rw [if_pos h2] at hw
          by_cases h3 : data ≠ 0x5A
          · rw [if_pos h3] at hw
            exact ih rest hrest _ w hw
          · rw [if_neg h3] at hw
            cases rest with
            | nil => simp at hw
            | cons d2 rest2 =>
              have hrest2 : rest2.length ≤ k := by
                simp only [List.length_cons] at hrest
                omega
              simp only [] at hw
              by_cases h4 : d2 = 0xA5
              · rw [if_pos h4] at hw
                exact ih rest2 hrest2 _ w hw
              · rw [if_neg h4] at hw
                exact ih rest2 hrest2 _ w hw
        · rw [if_neg h2] at hw
          by_cases h5 : s.steps = 2
          · rw [if_pos h5] at hw
            exact ih rest hrest _ w hw
          · rw [if_neg h5] at hw
            by_cases h6 : s.steps = 3
            · rw [if_pos h6] at hw
              by_cases h7 : 63 ≤ s.data_index
              · rw [if_pos h7] at hw
                exact ih rest hrest _ w hw
              · rw [if_neg h7] at hw
                by_cases h8 : s.length ≤ s.cnt + 1
                · rw [if_pos h8] at hw
                  simp only [List.mem_cons] at hw
                  rcases hw with hw | hw
                  · rw [hw]
                    simp only [Nat.not_le] at h7
                    simpa using h7
                  · exact ih rest hrest _ w hw
                · rw [if_neg h8] at hw
                  simp only [List.mem_cons] at hw
                  rcases hw with hw | hw
                  · rw [hw]
                    simp only [Nat.not_le] at h7
                    simpa using h7
                  · exact ih rest hrest _ w hw
            · rw [if_neg h6] at hw
              exact ih rest hrest _ w hw

/-- C9: for every inbound byte stream, the decoder never stores a
payload byte beyond the fixed 64-byte receive buffer — every store index
is below 63, hence below the buffer capacity 64 — and whenever the
payload index has reached the guard during `READ_PAYLOAD`, processing
the next byte resets the index and the frame flag, stores nothing, and
reports no frame. -/
theorem decoder_buffer_safety (s : DecState) (bytes : List Nat) (b : Nat)
    (hrecv : s.data_received = false) (hsteps : s.steps = 3)
    (hover : 63 ≤ s.data_index) :
    (∀ w ∈ (decodeStream s bytes).2, w.1 < 63 ∧ w.1 < 64) ∧
    decodeStream s [b]
      = ({ s with data_index := 0, data_received := false }, []) := by
  constructor
  · intro w hw
    have hb := decodeStream_writes_bounded_aux bytes.length bytes
      (Nat.le_refl _) s w hw
    exact ⟨hb, by omega⟩
  · simp [decodeStream, hrecv, hsteps, hover]

/-- Witness for C9: a payload step with the index at the guard value
resets cleanly, and a stream that overflows a 200-byte frame never
stores outside the buffer. -/
theorem decoder_buffer_safety_witness :
    (∀ w ∈ (decodeStream
        { steps := 3, length := 200, cnt := 0, data_index := 63, data_received := false }
        (0x5A :: 0xA5 :: 200 :: List.replicate 100 7)).2,
      w.1 < 63 ∧ w.1 < 64) ∧
    decodeStream
        { steps := 3, length := 200, cnt := 0, data_index := 63, data_received := false }
        [9]
      = ({ steps := 3, length := 200, cnt := 0, data_index := 0, data_received := false },
          []) :=
  decoder_buffer_safety
    { steps := 3, length := 200, cnt := 0, data_index := 63, data_received := false }
    (0x5A :: 0xA5 :: 200 :: List.replicate 100 7) 9 rfl rfl (by decide)
